import Mathlib

/-!
Verification development for the background-agents repository.

This file gives a shallow embedding of the agent lifecycle supervisor:
the `BaseAgent` lifecycle state machine (start / stop / periodic health
check with retry policy) and the `AgentManager` operations
(`startAgent`, `stopAgent`, `startAll`, `getAgentStatus`,
`getAgentClass`) from `src/agents/agent-manager.js`, together with the
configuration store (`getAgentConfig`, `getEnabledAgents`) from the
`ConfigManager`, and a model of the Node.js `EventEmitter.emit`
dispatch that the manager inherits.

Modelling conventions:
  - JavaScript timestamps (`Date.now()`) are threaded as explicit `Nat`
    arguments (`now`); `setInterval` timers are modelled by a Boolean
    `interval` flag (armed / cleared) gating whether further ticks fire.
  - Thrown JavaScript exceptions are modelled by explicit outcome
    fields: subclass hook behaviour (`checkHealth` ticks, the
    `initialize` and `cleanup` hooks) is passed in as data, since the
    hooks are polymorphic overrides.
  - Log lines are ignored except `logger.warn` messages that the spec
    treats as observable (idempotent-start warnings), which are
    collected in a `warnings` list.
-/

namespace BackgroundAgents

/-- Agent lifecycle status strings used by `BaseAgent`
(`this.status = ...` in agent-manager.js). -/
inductive AgentStatus where
  | stopped
  | starting
  | running
  | stopping
  | error
  deriving DecidableEq, Repr

/-- JS string for a status, as stored in `this.status`. -/
def AgentStatus.toStr : AgentStatus → String
  | .stopped => "stopped"
  | .starting => "starting"
  | .running => "running"
  | .stopping => "stopping"
  | .error => "error"

/-- Result of a `checkHealth()` call.  The supervisor only inspects the
`status` field (`health.status === "healthy"`); the remaining fields
(uptime, details) are opaque payload and are elided. -/
structure HealthCheckResult where
  status : String
  deriving DecidableEq, Repr

/-- Events emitted on the `BaseAgent` or `AgentManager` emitter
(`this.emit(...)` calls in agent-manager.js). -/
inductive AgentEvent where
  | started (name : String) (timestamp : Nat)
  | stopped (name : String) (timestamp : Nat)
  | errorEvent (name : String) (timestamp : Nat)
  | healthCheck (name : String) (health : HealthCheckResult) (timestamp : Nat)
  | agentStarted (name : String)
  | agentStopped (name : String)
  deriving DecidableEq, Repr

/-- State of one `BaseAgent` instance, plus the outcome behaviour of its
subclass hooks (`initOk`: whether `initialize()` returns normally;
`cleanupOk`: whether `cleanup()` returns normally). -/
structure BaseAgent where
  name : String
  status : AgentStatus
  startTime : Option Nat
  lastActivity : Option Nat
  /-- whether the `setInterval` health-check timer is armed -/
  interval : Bool
  retryCount : Nat
  maxRetries : Nat
  initOk : Bool
  cleanupOk : Bool
  deriving DecidableEq, Repr

/-- `BaseAgent.start()` (agent-manager.js lines 183-208): status to
`starting`, record timestamps, run `initialize()`; on success arm the
main-loop timer, status to `running`, emit `started`; on a hook throw,
status to `error`, emit `error`, rethrow (the `Bool` result is `false`
when the exception propagates to the caller). -/
def BaseAgent.start (a : BaseAgent) (now : Nat) :
    BaseAgent × List AgentEvent × Bool :=
  let a1 : BaseAgent :=
    { a with status := .starting, startTime := some now, lastActivity := some now }
  if a.initOk then
    ({ a1 with interval := true, status := .running },
     [.started a.name now], true)
  else
    ({ a1 with status := .error }, [.errorEvent a.name now], false)

/-- `BaseAgent.stop()` (agent-manager.js lines 210-234): status to
`stopping`, clear the interval timer, run `cleanup()`; on success status
to `stopped` and emit `stopped`; if `cleanup()` throws, the error is
logged and rethrown (result `false`) with the agent left in `stopping`. -/
def BaseAgent.stop (a : BaseAgent) (now : Nat) :
    BaseAgent × List AgentEvent × Bool :=
  let a1 : BaseAgent := { a with status := .stopping, interval := false }
  if a.cleanupOk then
    ({ a1 with status := .stopped }, [.stopped a.name now], true)
  else
    (a1, [], false)

/-- `BaseAgent.performHealthCheck()` (agent-manager.js lines 272-300).
`res` is the outcome of the `await this.checkHealth()` call: `.ok h` a
normal return, `.error e` a thrown exception.  The last component is
`true` exactly when the forced `this.stop()` was performed.  A
`checkHealth` throw lands in the outer catch, which only logs.  On the
forced-stop path the function returns before the `healthCheck` emit. -/
def BaseAgent.performHealthCheck (a : BaseAgent) (now : Nat)
    (res : Except String HealthCheckResult) :
    BaseAgent × List AgentEvent × Bool :=
  let a0 : BaseAgent := { a with lastActivity := some now }
  match res with
  | .error _ => (a0, [], false)
  | .ok health =>
    if health.status = "healthy" then
      ({ a0 with retryCount := 0 }, [.healthCheck a.name health now], false)
    else if a0.retryCount ≥ a0.maxRetries then
      let s := BaseAgent.stop a0 now
      (s.1, s.2.1, true)
    else
      ({ a0 with retryCount := a0.retryCount + 1 },
       [.healthCheck a.name health now], false)

/-- One scheduled health-check tick: the wall-clock time at which it
fires and the outcome of the `checkHealth()` call made on it. -/
structure Tick where
  now : Nat
  res : Except String HealthCheckResult
  deriving Repr

/-- Run a sequence of health-check ticks against an agent.  A tick fires
only while the interval timer is armed (`setInterval` semantics: once
`stop()` clears the timer, no further callbacks run).  Returns the final
agent state, the concatenated emitted events, and the number of times
the forced `stop()` of the retry policy was performed. -/
def runHealthTicks (a : BaseAgent) : List Tick → BaseAgent × List AgentEvent × Nat
  | [] => (a, [], 0)
  | t :: ts =>
    if a.interval then
      let s := BaseAgent.performHealthCheck a t.now t.res
      let r := runHealthTicks s.1 ts
      (r.1, s.2.1 ++ r.2.1, (if s.2.2 then 1 else 0) + r.2.2)
    else
      (a, [], 0)

/-- An unhealthy `checkHealth` result (any `status` other than
`"healthy"` takes the retry branch; this is the canonical one). -/
def unhealthyRes : HealthCheckResult := ⟨"unhealthy"⟩

/-- A healthy `checkHealth` result. -/
def healthyRes : HealthCheckResult := ⟨"healthy"⟩

/-! ## Configuration store (`ConfigManager` in security.js / config-manager) -/

/-- One agent definition from `config.agents` (README / agents.json
shape: `{ name, description, enabled, type, config }`; `maxRetries` and
`healthCheckInterval` are read by the `BaseAgent` constructor with
JS-falsy defaulting).  The opaque `config` blob and `description` are
elided. -/
structure AgentDefinition where
  name : String
  enabled : Bool
  type : String
  maxRetries : Option Nat
  healthCheckInterval : Option Nat
  deriving DecidableEq, Repr

/-- JS `x || d` on an optional numeric config field: `undefined` and `0`
are falsy. -/
def jsOrNat : Option Nat → Nat → Nat
  | none, d => d
  | some n, d => if n = 0 then d else n

/-- The `config.agents` object: an insertion-ordered map from agent name
to definition, modelled as an association list. -/
structure ConfigManager where
  agents : List (String × AgentDefinition)
  deriving DecidableEq, Repr

/-- JS object / `Map` key lookup on an association list. -/
def mapGet {α : Type} (l : List (String × α)) (k : String) : Option α :=
  match l with
  | [] => none
  | (k2, v) :: rest => if k2 = k then some v else mapGet rest k

/-- `Map.delete` on an association list. -/
def mapDelete {α : Type} (l : List (String × α)) (k : String) :
    List (String × α) :=
  match l with
  | [] => []
  | (k2, v) :: rest =>
    if k2 = k then rest else (k2, v) :: mapDelete rest k

/-- Replace the value stored under key `k` (in-place mutation of the
object the map references). -/
def mapSet {α : Type} (l : List (String × α)) (k : String) (v : α) :
    List (String × α) :=
  match l with
  | [] => []
  | (k2, v2) :: rest =>
    if k2 = k then (k2, v) :: rest else (k2, v2) :: mapSet rest k v

/-- Number of entries stored under key `k`. -/
def mapCountKey {α : Type} (l : List (String × α)) (k : String) : Nat :=
  match l with
  | [] => 0
  | (k2, _) :: rest =>
    (if k2 = k then 1 else 0) + mapCountKey rest k

/-- `ConfigManager.getAgentConfig` (security.js): `this.config.agents[agentName] || null`. -/
def ConfigManager.getAgentConfig (c : ConfigManager) (agentName : String) :
    Option AgentDefinition :=
  mapGet c.agents agentName

/-- `ConfigManager.getEnabledAgents` (security.js lines 858-860):
`Object.values(this.config.agents).filter(agent => agent.enabled)`. -/
def ConfigManager.getEnabledAgents (c : ConfigManager) : List AgentDefinition :=
  (c.agents.map Prod.snd).filter (fun a => a.enabled)

/-! ## AgentManager (the supervisor) -/

/-- Caller-visible exceptions thrown by `AgentManager` operations. -/
inductive MgrError where
  | notFound (agentName : String)
  | unknownAgentType (agentName : String)
  | agentStartError (agentName : String)
  | agentStopError (agentName : String)
  deriving DecidableEq, Repr

/-- The concrete agent classes of the fixed registry in
`AgentManager.getAgentClass`. -/
inductive AgentClass where
  | codeReviewAgent
  | testRunnerAgent
  | deploymentAgent
  | monitoringAgent
  | gitSyncAgent
  | performanceAgent
  | securityAgent
  | documentationAgent
  deriving DecidableEq, Repr

/-- The literal `agentClasses` object of `AgentManager.getAgentClass`
(agent-manager.js lines 122-131): a fixed mapping keyed by AGENT NAME. -/
def agentClasses : List (String × AgentClass) :=
  [("code-review", .codeReviewAgent),
   ("test-runner", .testRunnerAgent),
   ("deployment", .deploymentAgent),
   ("monitoring", .monitoringAgent),
   ("git-sync", .gitSyncAgent),
   ("performance", .performanceAgent),
   ("security", .securityAgent),
   ("documentation", .documentationAgent)]

/-- `AgentManager.getAgentClass(agentName)` (agent-manager.js lines
120-140): look the NAME up in the fixed registry; throw
`Unknown agent type: <name>` when absent. -/
def AgentManager.getAgentClass (agentName : String) :
    Except MgrError AgentClass :=
  match mapGet agentClasses agentName with
  | some cls => .ok cls
  | none => .error (.unknownAgentType agentName)

/-- Behaviour of the subclass hooks of the agent constructed for a given
name (`initialize` / `cleanup` outcome). -/
structure AgentBehavior where
  initOk : Bool
  cleanupOk : Bool
  deriving DecidableEq, Repr

/-- `new AgentClass(agentConfig, logger)` followed by the `BaseAgent`
constructor (agent-manager.js lines 169-181): fresh instance with
`status = stopped`, `retryCount = 0`,
`maxRetries = config.maxRetries || 3`. -/
def newBaseAgent (cfg : AgentDefinition) (b : AgentBehavior) : BaseAgent :=
  { name := cfg.name
    status := .stopped
    startTime := none
    lastActivity := none
    interval := false
    retryCount := 0
    maxRetries := jsOrNat cfg.maxRetries 3
    initOk := b.initOk
    cleanupOk := b.cleanupOk }

/-- The supervisor state: `this.activeAgents`, a `Map` from agent name
to the live agent instance. -/
structure ManagerState where
  activeAgents : List (String × BaseAgent)
  deriving DecidableEq, Repr

/-- Outcome of one `AgentManager` operation: the updated supervisor
state, all events emitted (agent-level and manager-level, in order),
the `logger.warn` messages issued, and the exception propagated to the
caller, if any. -/
structure MgrResult where
  state : ManagerState
  events : List AgentEvent
  warnings : List String
  thrown : Option MgrError
  deriving DecidableEq, Repr

/-- `AgentManager.startAgent(agentName)` (agent-manager.js lines 28-61).
`beh` gives the hook behaviour of the agent instance that would be
constructed for each name. -/
def AgentManager.startAgent (c : ConfigManager) (beh : String → AgentBehavior)
    (m : ManagerState) (agentName : String) (now : Nat) : MgrResult :=
  match c.getAgentConfig agentName with
  | none => ⟨m, [], [], some (.notFound agentName)⟩
  | some agentConfig =>
    if agentConfig.enabled = false then
      ⟨m, [], ["Agent " ++ agentName ++ " is disabled"], none⟩
    else if (mapGet m.activeAgents agentName).isSome then
      ⟨m, [], ["Agent " ++ agentName ++ " is already running"], none⟩
    else
      match AgentManager.getAgentClass agentName with
      | .error e => ⟨m, [], [], some e⟩
      | .ok _cls =>
        let agent := newBaseAgent agentConfig (beh agentName)
        let s := BaseAgent.start agent now
        if s.2.2 then
          ⟨⟨m.activeAgents ++ [(agentName, s.1)]⟩,
           s.2.1 ++ [.agentStarted agentName], [], none⟩
        else
          ⟨m, s.2.1, [], some (.agentStartError agentName)⟩

/-- `AgentManager.stopAgent(agentName)` (agent-manager.js lines 63-82).
On success the entry is deleted and `agentStopped` emitted; if
`agent.stop()` throws, the error is logged and rethrown and the (in
place mutated) instance stays in the active set. -/
def AgentManager.stopAgent (m : ManagerState) (agentName : String)
    (now : Nat) : MgrResult :=
  match mapGet m.activeAgents agentName with
  | none => ⟨m, [], ["Agent " ++ agentName ++ " is not running"], none⟩
  | some agent =>
    let s := BaseAgent.stop agent now
    if s.2.2 then
      ⟨⟨mapDelete m.activeAgents agentName⟩,
       s.2.1 ++ [.agentStopped agentName], [], none⟩
    else
      ⟨⟨mapSet m.activeAgents agentName s.1⟩, s.2.1, [],
       some (.agentStopError agentName)⟩

/-- Status report returned by `AgentManager.getAgentStatus`. -/
structure StatusReport where
  status : String
  uptime : Nat
  lastActivity : Option Nat
  deriving DecidableEq, Repr

/-- `AgentManager.getAgentStatus(agentName)` (agent-manager.js lines
96-108): `{status: "stopped", uptime: 0}` when no active instance,
otherwise the live status of the stored agent. -/
def AgentManager.getAgentStatus (m : ManagerState) (agentName : String)
    (now : Nat) : StatusReport :=
  match mapGet m.activeAgents agentName with
  | none => ⟨"stopped", 0, none⟩
  | some agent =>
    ⟨agent.status.toStr, now - (agent.startTime.getD 0), agent.lastActivity⟩

/-- Recursion of `startAll` over the enabled definitions: each
`startAgent` call sits in a `try`/`catch` that logs the failure and
continues with the next agent. -/
def startAllGo (c : ConfigManager) (beh : String → AgentBehavior) (now : Nat) :
    ManagerState → List AgentDefinition → ManagerState × List AgentEvent × List String
  | m, [] => (m, [], [])
  | m, d :: ds =>
    let r := AgentManager.startAgent c beh m d.name now
    let rest := startAllGo c beh now r.state ds
    (rest.1, r.events ++ rest.2.1, r.warnings ++ rest.2.2)

/-- `AgentManager.startAll()` (agent-manager.js lines 15-26): iterate
`getEnabledAgents()`, start each, catch and log per-agent failures,
never abort early, never throw. -/
def AgentManager.startAll (c : ConfigManager) (beh : String → AgentBehavior)
    (m : ManagerState) (now : Nat) : ManagerState × List AgentEvent × List String :=
  startAllGo c beh now m c.getEnabledAgents

/-! ## Node.js `EventEmitter.emit` dispatch

`AgentManager` and `BaseAgent` extend Node's `EventEmitter`; every
lifecycle event is published through `this.emit(...)`.  Node's `emit`
invokes the listeners registered for the event synchronously, in
registration order, and does NOT wrap the calls in try/catch: an
exception thrown by a listener propagates out of `emit` (back into the
supervisor operation that emitted) and the remaining listeners are not
invoked.  A listener is modelled by its registration id and whether its
invocation on this event throws. -/

/-- One registered listener (`on`-handler) on the emitter. -/
structure Handler where
  hid : Nat
  throwsOn : Bool
  deriving DecidableEq, Repr

/-- Node `EventEmitter.emit` dispatch over the registered listeners:
returns the ids of the listeners actually invoked, in order, and whether
an exception propagated out of `emit`. -/
def emitRun : List Handler → List Nat × Bool
  | [] => ([], false)
  | h :: hs =>
    if h.throwsOn then
      ([h.hid], true)
    else
      let r := emitRun hs
      (h.hid :: r.1, r.2)

/-! ## Helper predicates on ticks -/

/-- The `checkHealth()` call of this tick returned normally with a
non-healthy status (the retry branch of `performHealthCheck`). -/
def tickUnhealthy (t : Tick) : Bool :=
  match t.res with
  | .ok h => !(h.status == "healthy")
  | .error _ => false

/-- The `checkHealth()` call of this tick threw. -/
def tickThrows (t : Tick) : Bool :=
  match t.res with
  | .ok _ => false
  | .error _ => true

/-- Whether an emitted event is a `healthCheck` event. -/
def isHealthCheckEvent : AgentEvent → Bool
  | .healthCheck _ _ _ => true
  | _ => false

/-! ## Concrete fixtures used in witnesses and counterexamples -/

/-- A concrete running agent used to witness the health-loop claims. -/
def witnessAgent : BaseAgent :=
  { name := "monitoring"
    status := .running
    startTime := some 0
    lastActivity := some 0
    interval := true
    retryCount := 0
    maxRetries := 3
    initOk := true
    cleanupOk := true }

/-- A concrete unhealthy tick. -/
def witnessUnhealthyTick : Tick := ⟨1, .ok unhealthyRes⟩

/-- A concrete healthy tick. -/
def witnessHealthyTick : Tick := ⟨1, .ok healthyRes⟩

/-- Hook behaviour where every hook returns normally. -/
def behOK : String → AgentBehavior := fun _ => ⟨true, true⟩

/-- Hook behaviour where every `initialize` hook throws. -/
def behInitFails : String → AgentBehavior := fun _ => ⟨false, true⟩

/-- A minimal definition for the `monitoring` agent. -/
def defMonitoring : AgentDefinition := ⟨"monitoring", true, "monitoring", none, none⟩

/-- A configuration holding just the enabled `monitoring` agent. -/
def cfgOne : ConfigManager := ⟨[("monitoring", defMonitoring)]⟩

/-- A definition whose NAME is not a registry key but whose `type` field
is a known kind (`monitoring`). -/
def defCustomMonitor : AgentDefinition :=
  ⟨"custom-monitor", true, "monitoring", none, none⟩

/-- A configuration holding just the enabled `custom-monitor` agent. -/
def cfgCustom : ConfigManager := ⟨[("custom-monitor", defCustomMonitor)]⟩

/-- Configuration for the `startAll` scenario: `bogus-agent` enabled but
not a known kind, `security` enabled, `test-runner` disabled,
`monitoring` enabled. -/
def cfgStartAll : ConfigManager :=
  ⟨[("bogus-agent", ⟨"bogus-agent", true, "bogus-agent", none, none⟩),
    ("security", ⟨"security", true, "security", none, none⟩),
    ("test-runner", ⟨"test-runner", false, "test-runner", none, none⟩),
    ("monitoring", ⟨"monitoring", true, "monitoring", none, none⟩)]⟩

/-- Hook behaviour for the `startAll` scenario: the `security` agent
initialisation outcome is the parameter `bsec`; all other hooks return
normally. -/
def behStartAll (bsec : Bool) : String → AgentBehavior :=
  fun n => if n = "security" then ⟨bsec, true⟩ else ⟨true, true⟩

/-! ## Helper lemmas on the health-check loop -/

theorem runHealthTicks_nil (a : BaseAgent) : runHealthTicks a [] = (a, [], 0) := rfl

theorem runHealthTicks_interval_false (a : BaseAgent) (ts : List Tick)
    (h : a.interval = false) : runHealthTicks a ts = (a, [], 0) := by
  cases ts with
  | nil => rfl
  | cons t ts => simp [runHealthTicks, h]

theorem runHealthTicks_append (xs ys : List Tick) :
    ∀ a : BaseAgent,
      runHealthTicks a (xs ++ ys) =
        ((runHealthTicks (runHealthTicks a xs).1 ys).1,
         (runHealthTicks a xs).2.1 ++ (runHealthTicks (runHealthTicks a xs).1 ys).2.1,
         (runHealthTicks a xs).2.2 + (runHealthTicks (runHealthTicks a xs).1 ys).2.2) := by
  induction xs with
  | nil => intro a; simp [runHealthTicks]
  | cons x xs ih =>
    intro a
    by_cases hI : a.interval = true
    · simp only [List.cons_append, runHealthTicks, hI, if_true, List.append_eq]
      rw [ih]
      simp [List.append_assoc, Nat.add_assoc]
    · have hI2 : a.interval = false := by
        revert hI; cases a.interval <;> simp
      rw [runHealthTicks_interval_false _ _ hI2,
          runHealthTicks_interval_false _ _ hI2,
          runHealthTicks_interval_false _ _ hI2]
      simp

theorem performHealthCheck_throw (a : BaseAgent) (now : Nat) (e : String) :
    a.performHealthCheck now (.error e) =
      ({ a with lastActivity := some now }, [], false) := rfl

theorem performHealthCheck_healthy (a : BaseAgent) (now : Nat)
    (h : HealthCheckResult) (hh : h.status = "healthy") :
    a.performHealthCheck now (.ok h) =
      ({ a with lastActivity := some now, retryCount := 0 },
       [.healthCheck a.name h now], false) := by
  simp [BaseAgent.performHealthCheck, hh]

theorem performHealthCheck_unhealthy_under (a : BaseAgent) (now : Nat)
    (h : HealthCheckResult) (hh : ¬ h.status = "healthy")
    (hlt : a.retryCount < a.maxRetries) :
    a.performHealthCheck now (.ok h) =
      ({ a with lastActivity := some now, retryCount := a.retryCount + 1 },
       [.healthCheck a.name h now], false) := by
  have hge : ¬ a.retryCount ≥ a.maxRetries := by omega
  simp [BaseAgent.performHealthCheck, hh, hge]

theorem performHealthCheck_unhealthy_stop (a : BaseAgent) (now : Nat)
    (h : HealthCheckResult) (hh : ¬ h.status = "healthy")
    (hge : a.retryCount ≥ a.maxRetries) :
    a.performHealthCheck now (.ok h) =
      (BaseAgent.stop { a with lastActivity := some now } now |>.1,
       BaseAgent.stop { a with lastActivity := some now } now |>.2.1,
       true) := by
  simp [BaseAgent.performHealthCheck, hh, hge]

theorem tickUnhealthy_elim (t : Tick) (ht : tickUnhealthy t = true) :
    ∃ h : HealthCheckResult, t.res = .ok h ∧ ¬ h.status = "healthy" := by
  cases hres : t.res with
  | error e => rw [tickUnhealthy, hres] at ht; exact absurd ht (by simp)
  | ok h =>
    refine ⟨h, rfl, ?_⟩
    rw [tickUnhealthy, hres] at ht
    simpa using ht

/-- Running consecutive unhealthy ticks while the retry budget is not
yet exhausted: each tick increments `retryCount`, performs no stop, and
leaves status, interval flag and configuration untouched. -/
theorem runHealthTicks_under_budget (ts : List Tick) :
    ∀ a : BaseAgent, a.interval = true →
    (∀ t ∈ ts, tickUnhealthy t = true) →
    a.retryCount + ts.length ≤ a.maxRetries →
    (runHealthTicks a ts).1 =
      { a with retryCount := a.retryCount + ts.length,
               lastActivity := (runHealthTicks a ts).1.lastActivity } ∧
    (runHealthTicks a ts).2.2 = 0 := by
  induction ts with
  | nil => intro a _ _ _; constructor <;> rfl
  | cons t ts ih =>
    intro a hI hu hbound
    obtain ⟨h, hres, hh⟩ := tickUnhealthy_elim t (hu t (by simp))
    have hlt : a.retryCount < a.maxRetries := by
      simp only [List.length_cons] at hbound; omega
    have hstep := performHealthCheck_unhealthy_under a t.now h hh hlt
    have hrun : runHealthTicks a (t :: ts) =
        (let s := BaseAgent.performHealthCheck a t.now t.res
         let r := runHealthTicks s.1 ts
         (r.1, s.2.1 ++ r.2.1, (if s.2.2 then 1 else 0) + r.2.2)) := by
      simp [runHealthTicks, hI]
    rw [hrun]
    simp only [hres, hstep]
    have ihres := ih { a with lastActivity := some t.now,
                              retryCount := a.retryCount + 1 }
      (by exact hI)
      (fun x hx => hu x (by simp [hx]))
      (by simp only [List.length_cons] at hbound; simp; omega)
    constructor
    · rw [ihres.1]
      simp only [List.length_cons]
      congr 1
      omega
    · simp [ihres.2]

/-- Field-level consequences of `runHealthTicks_under_budget`. -/
theorem runHealthTicks_under_budget_fields (ts : List Tick) (a : BaseAgent)
    (hI : a.interval = true) (hu : ∀ t ∈ ts, tickUnhealthy t = true)
    (hb : a.retryCount + ts.length ≤ a.maxRetries) :
    (runHealthTicks a ts).1.retryCount = a.retryCount + ts.length ∧
    (runHealthTicks a ts).1.interval = true ∧
    (runHealthTicks a ts).1.status = a.status ∧
    (runHealthTicks a ts).1.maxRetries = a.maxRetries ∧
    (runHealthTicks a ts).1.cleanupOk = a.cleanupOk ∧
    (runHealthTicks a ts).2.2 = 0 := by
  have hub := runHealthTicks_under_budget ts a hI hu hb
  rw [hub.1]
  exact ⟨rfl, hI, rfl, rfl, rfl, hub.2⟩

/-- Successful `stop()` (cleanup hook returns normally): final status
`stopped`, interval timer cleared, no rethrow. -/
theorem stop_ok_fields (a : BaseAgent) (now : Nat) (hcl : a.cleanupOk = true) :
    (BaseAgent.stop a now).1.status = .stopped ∧
    (BaseAgent.stop a now).1.interval = false ∧
    (BaseAgent.stop a now).2.2 = true := by
  simp [BaseAgent.stop, hcl]

/-- An unhealthy tick arriving with the retry budget exhausted
(`retryCount ≥ maxRetries`): the forced stop is performed on this tick,
exactly once over the whole remaining run, and no later tick fires. -/
theorem runHealthTicks_exhausted_stop (a : BaseAgent) (t : Tick) (rest : List Tick)
    (hI : a.interval = true) (hcl : a.cleanupOk = true)
    (ht : tickUnhealthy t = true) (hge : a.retryCount ≥ a.maxRetries) :
    (runHealthTicks a (t :: rest)).2.2 = 1 ∧
    (runHealthTicks a (t :: rest)).1.status = .stopped ∧
    (runHealthTicks a (t :: rest)).1.interval = false := by
  obtain ⟨h, hres, hh⟩ := tickUnhealthy_elim t ht
  have hstop := performHealthCheck_unhealthy_stop a t.now h hh hge
  have hcl0 : (BaseAgent.stop { a with lastActivity := some t.now } t.now).1.status
        = .stopped ∧
      (BaseAgent.stop { a with lastActivity := some t.now } t.now).1.interval
        = false ∧
      (BaseAgent.stop { a with lastActivity := some t.now } t.now).2.2 = true :=
    stop_ok_fields _ _ hcl
  have hrun : runHealthTicks a (t :: rest) =
      (let s := BaseAgent.performHealthCheck a t.now t.res
       let r := runHealthTicks s.1 rest
       (r.1, s.2.1 ++ r.2.1, (if s.2.2 then 1 else 0) + r.2.2)) := by
    simp [runHealthTicks, hI]
  rw [hrun]
  simp only [hres, hstop]
  rw [runHealthTicks_interval_false _ rest hcl0.2.1]
  exact ⟨rfl, hcl0.1, hcl0.2.1⟩

/-- A tick whose `checkHealth` returns `healthy`: `retryCount` resets to
0, the `healthCheck` event is emitted, no stop occurs. -/
theorem runHealthTicks_healthy_step (a : BaseAgent) (t : Tick) (rest : List Tick)
    (h : HealthCheckResult) (hI : a.interval = true)
    (hres : t.res = .ok h) (hh : h.status = "healthy") :
    runHealthTicks a (t :: rest) =
      ((runHealthTicks { a with lastActivity := some t.now, retryCount := 0 } rest).1,
       .healthCheck a.name h t.now ::
         (runHealthTicks { a with lastActivity := some t.now, retryCount := 0 } rest).2.1,
       (runHealthTicks { a with lastActivity := some t.now, retryCount := 0 } rest).2.2) := by
  have hstep := performHealthCheck_healthy a t.now h hh
  have hrun : runHealthTicks a (t :: rest) =
      (let s := BaseAgent.performHealthCheck a t.now t.res
       let r := runHealthTicks s.1 rest
       (r.1, s.2.1 ++ r.2.1, (if s.2.2 then 1 else 0) + r.2.2)) := by
    simp [runHealthTicks, hI]
  rw [hrun]
  simp only [hres, hstep]
  simp

/-! ## Association-list lemmas (JS `Map` semantics) -/

theorem mapGet_none_countKey_zero {α : Type} (l : List (String × α)) (k : String)
    (h : mapGet l k = none) : mapCountKey l k = 0 := by
  induction l with
  | nil => rfl
  | cons p rest ih =>
    obtain ⟨k2, v⟩ := p
    by_cases hk : k2 = k
    · rw [mapGet, if_pos hk] at h
      exact absurd h (by simp)
    · rw [mapGet, if_neg hk] at h
      rw [mapCountKey, if_neg hk, ih h]

theorem mapCountKey_zero_get_none {α : Type} (l : List (String × α)) (k : String)
    (h : mapCountKey l k = 0) : mapGet l k = none := by
  induction l with
  | nil => rfl
  | cons p rest ih =>
    obtain ⟨k2, v⟩ := p
    by_cases hk : k2 = k
    · rw [mapCountKey, if_pos hk] at h
      omega
    · rw [mapCountKey, if_neg hk] at h
      rw [mapGet, if_neg hk]
      exact ih (by omega)

theorem mapCountKey_append {α : Type} (l1 l2 : List (String × α)) (k : String) :
    mapCountKey (l1 ++ l2) k = mapCountKey l1 k + mapCountKey l2 k := by
  induction l1 with
  | nil => simp [mapCountKey]
  | cons p rest ih =>
    obtain ⟨k2, v⟩ := p
    rw [List.cons_append, mapCountKey, mapCountKey, ih]
    omega

theorem mapGet_append_of_none {α : Type} (l : List (String × α)) (k : String)
    (v : α) (h : mapGet l k = none) : mapGet (l ++ [(k, v)]) k = some v := by
  induction l with
  | nil => simp [mapGet]
  | cons p rest ih =>
    obtain ⟨k2, v2⟩ := p
    by_cases hk : k2 = k
    · rw [mapGet, if_pos hk] at h
      exact absurd h (by simp)
    · rw [mapGet, if_neg hk] at h
      rw [List.cons_append, mapGet, if_neg hk]
      exact ih h

theorem mapGet_mapSet_of_some {α : Type} (l : List (String × α)) (k : String)
    (v w : α) (h : mapGet l k = some w) : mapGet (mapSet l k v) k = some v := by
  induction l with
  | nil => exact absurd h (by rw [mapGet]; simp)
  | cons p rest ih =>
    obtain ⟨k2, v2⟩ := p
    by_cases hk : k2 = k
    · rw [mapSet, if_pos hk, mapGet, if_pos hk]
    · rw [mapGet, if_neg hk] at h
      rw [mapSet, if_neg hk, mapGet, if_neg hk]
      exact ih h

theorem mapGet_mapDelete_of_uniq {α : Type} (l : List (String × α)) (k : String)
    (huniq : mapCountKey l k ≤ 1) : mapGet (mapDelete l k) k = none := by
  induction l with
  | nil => rfl
  | cons p rest ih =>
    obtain ⟨k2, v2⟩ := p
    by_cases hk : k2 = k
    · rw [mapCountKey, if_pos hk] at huniq
      rw [mapDelete, if_pos hk]
      exact mapCountKey_zero_get_none rest k (by omega)
    · rw [mapCountKey, if_neg hk] at huniq
      rw [mapDelete, if_neg hk, mapGet, if_neg hk]
      exact ih (by omega)

/-! ## Claim theorems -/

/-- C1: if `checkHealth` returns an unhealthy result for
`maxRetries + 1` consecutive health-check ticks with no intervening
healthy result, the health-check loop stops the agent exactly once: the
first `maxRetries` ticks perform no stop and leave `retryCount` at
`maxRetries`, the next tick performs the stop (stop count over the
whole run is exactly 1), and the agent is never started again
automatically — whatever ticks follow, the status remains `stopped`
and the timer stays cleared. -/
theorem C1_unhealthy_run_stops_exactly_once (a : BaseAgent) (pre : List Tick)
    (tlast : Tick) (rest : List Tick)
    (hI : a.interval = true) (hrc : a.retryCount = 0) (hcl : a.cleanupOk = true)
    (hlen : pre.length = a.maxRetries)
    (hpre : ∀ t ∈ pre, tickUnhealthy t = true)
    (hlast : tickUnhealthy tlast = true) :
    (runHealthTicks a pre).2.2 = 0 ∧
    (runHealthTicks a pre).1.retryCount = a.maxRetries ∧
    (runHealthTicks a (pre ++ tlast :: rest)).2.2 = 1 ∧
    (runHealthTicks a (pre ++ tlast :: rest)).1.status = .stopped ∧
    (runHealthTicks a (pre ++ tlast :: rest)).1.interval = false := by
  have hb : a.retryCount + pre.length ≤ a.maxRetries := by omega
  have hf := runHealthTicks_under_budget_fields pre a hI hpre hb
  have hstop := runHealthTicks_exhausted_stop (runHealthTicks a pre).1 tlast rest
    hf.2.1 (by rw [hf.2.2.2.2.1]; exact hcl) hlast
    (by rw [hf.1, hf.2.2.2.1]; omega)
  rw [runHealthTicks_append]
  exact ⟨hf.2.2.2.2.2, by rw [hf.1]; omega,
    by simp only [hf.2.2.2.2.2, hstop.1], hstop.2.1, hstop.2.2⟩

/-- Witness for C1 at a concrete input: `maxRetries = 3`, four
consecutive unhealthy ticks. -/
theorem C1_unhealthy_run_stops_exactly_once_witness :
    witnessAgent.interval = true ∧ witnessAgent.retryCount = 0 ∧
    witnessAgent.cleanupOk = true ∧
    (List.replicate 3 witnessUnhealthyTick).length = witnessAgent.maxRetries ∧
    (∀ t ∈ List.replicate 3 witnessUnhealthyTick, tickUnhealthy t = true) ∧
    tickUnhealthy witnessUnhealthyTick = true ∧
    ((runHealthTicks witnessAgent (List.replicate 3 witnessUnhealthyTick)).2.2 = 0 ∧
     (runHealthTicks witnessAgent (List.replicate 3 witnessUnhealthyTick)).1.retryCount
        = witnessAgent.maxRetries ∧
     (runHealthTicks witnessAgent
        (List.replicate 3 witnessUnhealthyTick ++ witnessUnhealthyTick :: [])).2.2 = 1 ∧
     (runHealthTicks witnessAgent
        (List.replicate 3 witnessUnhealthyTick ++ witnessUnhealthyTick :: [])).1.status
        = .stopped ∧
     (runHealthTicks witnessAgent
        (List.replicate 3 witnessUnhealthyTick ++ witnessUnhealthyTick :: [])).1.interval
        = false) :=
  ⟨rfl, rfl, rfl, rfl, by decide, by decide,
   C1_unhealthy_run_stops_exactly_once witnessAgent
     (List.replicate 3 witnessUnhealthyTick) witnessUnhealthyTick []
     rfl rfl rfl rfl (by decide) (by decide)⟩

/-- C2: a single healthy tick resets `retryCount` to 0, so
`maxRetries - 1` unhealthy ticks, then one healthy tick, then
`maxRetries` further unhealthy ticks never trigger a forced stop: over
the whole run the stop count is 0, and the agent keeps its status with
the health-check timer still armed. -/
theorem C2_healthy_tick_resets_retryCount (a : BaseAgent) (pre1 : List Tick)
    (th : Tick) (pre2 : List Tick) (h : HealthCheckResult)
    (hI : a.interval = true) (hrc : a.retryCount = 0) (hm : 1 ≤ a.maxRetries)
    (hlen1 : pre1.length = a.maxRetries - 1)
    (hlen2 : pre2.length = a.maxRetries)
    (hu1 : ∀ t ∈ pre1, tickUnhealthy t = true)
    (hres : th.res = .ok h) (hh : h.status = "healthy")
    (hu2 : ∀ t ∈ pre2, tickUnhealthy t = true) :
    (runHealthTicks a (pre1 ++ th :: pre2)).2.2 = 0 ∧
    (runHealthTicks a (pre1 ++ th :: pre2)).1.status = a.status ∧
    (runHealthTicks a (pre1 ++ th :: pre2)).1.interval = true := by
  have hb1 : a.retryCount + pre1.length ≤ a.maxRetries := by omega
  have hf1 := runHealthTicks_under_budget_fields pre1 a hI hu1 hb1
  have hstep := runHealthTicks_healthy_step (runHealthTicks a pre1).1 th pre2 h
    hf1.2.1 hres hh
  have hf2 := runHealthTicks_under_budget_fields pre2
    { (runHealthTicks a pre1).1 with lastActivity := some th.now, retryCount := 0 }
    (by show (runHealthTicks a pre1).1.interval = true; exact hf1.2.1)
    hu2
    (by show 0 + pre2.length ≤ (runHealthTicks a pre1).1.maxRetries
        rw [hf1.2.2.2.1]; omega)
  rw [runHealthTicks_append, hstep]
  refine ⟨?_, ?_, ?_⟩
  · simp only [hf1.2.2.2.2.2, hf2.2.2.2.2.2]
  · simp only [hf2.2.1, hf2.2.2.1]
    show (runHealthTicks a pre1).1.status = a.status
    exact hf1.2.2.1
  · exact hf2.2.1

/-- Witness for C2 at a concrete input: `maxRetries = 3`, two unhealthy
ticks, one healthy tick, three more unhealthy ticks. -/
theorem C2_healthy_tick_resets_retryCount_witness :
    witnessAgent.interval = true ∧ witnessAgent.retryCount = 0 ∧
    1 ≤ witnessAgent.maxRetries ∧
    (List.replicate 2 witnessUnhealthyTick).length = witnessAgent.maxRetries - 1 ∧
    (List.replicate 3 witnessUnhealthyTick).length = witnessAgent.maxRetries ∧
    witnessHealthyTick.res = .ok healthyRes ∧ healthyRes.status = "healthy" ∧
    ((runHealthTicks witnessAgent
        (List.replicate 2 witnessUnhealthyTick ++ witnessHealthyTick ::
          List.replicate 3 witnessUnhealthyTick)).2.2 = 0 ∧
     (runHealthTicks witnessAgent
        (List.replicate 2 witnessUnhealthyTick ++ witnessHealthyTick ::
          List.replicate 3 witnessUnhealthyTick)).1.status = witnessAgent.status ∧
     (runHealthTicks witnessAgent
        (List.replicate 2 witnessUnhealthyTick ++ witnessHealthyTick ::
          List.replicate 3 witnessUnhealthyTick)).1.interval = true) :=
  ⟨rfl, rfl, by decide, rfl, rfl, rfl, rfl,
   C2_healthy_tick_resets_retryCount witnessAgent
     (List.replicate 2 witnessUnhealthyTick) witnessHealthyTick
     (List.replicate 3 witnessUnhealthyTick) healthyRes
     rfl rfl (by decide) rfl rfl (by decide) rfl rfl (by decide)⟩

/-- C10: a health-check tick whose `checkHealth()` throws is fully
absorbed by the catch in `performHealthCheck`: only `lastActivity` is
updated — `retryCount` and `status` are unchanged, no stop is performed
and no event is emitted; consequently an agent whose `checkHealth`
always throws is never stopped by the retry policy, however many ticks
elapse (no stop, no events, `retryCount` and `status` unchanged). -/
theorem C10_checkHealth_throw_absorbed (a : BaseAgent) (now : Nat) (e : String)
    (ts : List Tick) (hts : ∀ t ∈ ts, tickThrows t = true) :
    a.performHealthCheck now (.error e) =
      ({ a with lastActivity := some now }, [], false) ∧
    (runHealthTicks a ts).2.2 = 0 ∧
    (runHealthTicks a ts).2.1 = [] ∧
    (runHealthTicks a ts).1.retryCount = a.retryCount ∧
    (runHealthTicks a ts).1.status = a.status := by
  refine ⟨rfl, ?_⟩
  induction ts generalizing a with
  | nil => exact ⟨rfl, rfl, rfl, rfl⟩
  | cons t ts ih =>
    have hthrow : ∃ e2, t.res = .error e2 := by
      have := hts t (by simp)
      rw [tickThrows] at this
      cases hres : t.res with
      | ok h => rw [hres] at this; exact absurd this (by simp)
      | error e2 => exact ⟨e2, rfl⟩
    obtain ⟨e2, hres⟩ := hthrow
    by_cases hI : a.interval = true
    · have hrun : runHealthTicks a (t :: ts) =
          (let s := BaseAgent.performHealthCheck a t.now t.res
           let r := runHealthTicks s.1 ts
           (r.1, s.2.1 ++ r.2.1, (if s.2.2 then 1 else 0) + r.2.2)) := by
        simp [runHealthTicks, hI]
      rw [hrun]
      simp only [hres, performHealthCheck_throw]
      have ihres := ih { a with lastActivity := some t.now }
        (fun x hx => hts x (by simp [hx]))
      exact ⟨by simp [ihres.1], by simp [ihres.2.1], ihres.2.2.1, ihres.2.2.2⟩
    · have hI2 : a.interval = false := by revert hI; cases a.interval <;> simp
      rw [runHealthTicks_interval_false _ _ hI2]
      exact ⟨rfl, rfl, rfl, rfl⟩

/-- Witness for C10 at a concrete input: three consecutive throwing
ticks against the witness agent. -/
theorem C10_checkHealth_throw_absorbed_witness :
    (∀ t ∈ List.replicate 3 (Tick.mk 1 (.error "boom")), tickThrows t = true) ∧
    (witnessAgent.performHealthCheck 1 (.error "boom") =
      ({ witnessAgent with lastActivity := some 1 }, [], false) ∧
     (runHealthTicks witnessAgent (List.replicate 3 (Tick.mk 1 (.error "boom")))).2.2 = 0 ∧
     (runHealthTicks witnessAgent (List.replicate 3 (Tick.mk 1 (.error "boom")))).2.1 = [] ∧
     (runHealthTicks witnessAgent
        (List.replicate 3 (Tick.mk 1 (.error "boom")))).1.retryCount
        = witnessAgent.retryCount ∧
     (runHealthTicks witnessAgent
        (List.replicate 3 (Tick.mk 1 (.error "boom")))).1.status
        = witnessAgent.status) :=
  ⟨by decide,
   C10_checkHealth_throw_absorbed witnessAgent 1 "boom"
     (List.replicate 3 (Tick.mk 1 (.error "boom"))) (by decide)⟩

/-- C3 counterexample: an active agent whose `cleanup()` hook throws.
`stopAgent` rethrows AND leaves the entry in the active set (the claim
asserts the entry is removed even when stop threw): afterwards the
active set still holds the agent and `getAgentStatus` reports
`stopping`, not `stopped`. -/
theorem C3_stale_entry_counterexample :
    (AgentManager.stopAgent
        ⟨[("monitoring", { witnessAgent with cleanupOk := false })]⟩
        "monitoring" 5).thrown = some (.agentStopError "monitoring") ∧
    (mapGet (AgentManager.stopAgent
        ⟨[("monitoring", { witnessAgent with cleanupOk := false })]⟩
        "monitoring" 5).state.activeAgents "monitoring").isSome = true ∧
    (AgentManager.getAgentStatus
      (AgentManager.stopAgent
        ⟨[("monitoring", { witnessAgent with cleanupOk := false })]⟩
        "monitoring" 5).state "monitoring" 5).status = "stopping" := by
  decide

/-- C3 amended: for an active agent `n`, `stopAgent(n)` removes the
entry exactly when `agent.stop()` succeeded: on success the entry is
deleted and `getAgentStatus` reports `stopped`; when stop/cleanup
throws, `stopAgent` rethrows and the entry REMAINS in the active set
with the in-place-mutated instance (status `stopping`), so
`getAgentStatus` does not report `stopped`. -/
theorem C3_stopAgent_entry_removed_iff_stop_succeeds (m : ManagerState)
    (n : String) (now : Nat) (agent : BaseAgent)
    (hget : mapGet m.activeAgents n = some agent)
    (huniq : mapCountKey m.activeAgents n ≤ 1) :
    (agent.cleanupOk = true →
      (AgentManager.stopAgent m n now).thrown = none ∧
      mapGet (AgentManager.stopAgent m n now).state.activeAgents n = none ∧
      (AgentManager.getAgentStatus (AgentManager.stopAgent m n now).state n now).status
        = "stopped") ∧
    (agent.cleanupOk = false →
      (AgentManager.stopAgent m n now).thrown = some (.agentStopError n) ∧
      (mapGet (AgentManager.stopAgent m n now).state.activeAgents n).isSome = true ∧
      (AgentManager.getAgentStatus (AgentManager.stopAgent m n now).state n now).status
        = "stopping") := by
  constructor
  · intro hcl
    have hstop : (BaseAgent.stop agent now).2.2 = true := by
      simp [BaseAgent.stop, hcl]
    have hr : AgentManager.stopAgent m n now =
        ⟨⟨mapDelete m.activeAgents n⟩,
         (BaseAgent.stop agent now).2.1 ++ [.agentStopped n], [], none⟩ := by
      rw [AgentManager.stopAgent, hget]
      simp only [hstop, if_true]
    rw [hr]
    have hdel : mapGet (mapDelete m.activeAgents n) n = none :=
      mapGet_mapDelete_of_uniq m.activeAgents n huniq
    refine ⟨rfl, hdel, ?_⟩
    rw [AgentManager.getAgentStatus]
    simp only [hdel]
  · intro hcl
    have hstop : (BaseAgent.stop agent now).2.2 = false := by
      simp [BaseAgent.stop, hcl]
    have hstop1 : (BaseAgent.stop agent now).1 =
        { agent with status := .stopping, interval := false } := by
      simp [BaseAgent.stop, hcl]
    have hr : AgentManager.stopAgent m n now =
        ⟨⟨mapSet m.activeAgents n (BaseAgent.stop agent now).1⟩,
         (BaseAgent.stop agent now).2.1, [], some (.agentStopError n)⟩ := by
      rw [AgentManager.stopAgent, hget]
      simp [hstop]
    rw [hr]
    have hset : mapGet (mapSet m.activeAgents n (BaseAgent.stop agent now).1) n
        = some (BaseAgent.stop agent now).1 :=
      mapGet_mapSet_of_some m.activeAgents n _ agent hget
    refine ⟨rfl, by rw [hset]; rfl, ?_⟩
    rw [AgentManager.getAgentStatus, hset, hstop1]
    rfl

/-- Witness for C3 (amended) at a concrete input: the cleanup-throwing
branch. -/
theorem C3_stopAgent_entry_removed_iff_stop_succeeds_witness :
    mapGet ([("monitoring", { witnessAgent with cleanupOk := false })] :
        List (String × BaseAgent)) "monitoring"
      = some { witnessAgent with cleanupOk := false } ∧
    mapCountKey ([("monitoring", { witnessAgent with cleanupOk := false })] :
        List (String × BaseAgent)) "monitoring" ≤ 1 ∧
    ((AgentManager.stopAgent
        ⟨[("monitoring", { witnessAgent with cleanupOk := false })]⟩
        "monitoring" 5).thrown = some (.agentStopError "monitoring") ∧
     (mapGet (AgentManager.stopAgent
        ⟨[("monitoring", { witnessAgent with cleanupOk := false })]⟩
        "monitoring" 5).state.activeAgents "monitoring").isSome = true ∧
     (AgentManager.getAgentStatus
        (AgentManager.stopAgent
          ⟨[("monitoring", { witnessAgent with cleanupOk := false })]⟩
          "monitoring" 5).state "monitoring" 5).status = "stopping") :=
  ⟨by decide, by decide,
   (C3_stopAgent_entry_removed_iff_stop_succeeds
      ⟨[("monitoring", { witnessAgent with cleanupOk := false })]⟩
      "monitoring" 5 { witnessAgent with cleanupOk := false }
      (by decide) (by decide)).2 rfl⟩

/-- C4 counterexample: a running agent with `retryCount = maxRetries`
receiving one more unhealthy tick.  The forced stop is performed on this
tick, and the tick emits NO `healthCheck` event (the code returns right
after `stop()`, before the emit) — the claim asserts every tick emits
one regardless of outcome. -/
theorem C4_forced_stop_tick_counterexample :
    (({ witnessAgent with retryCount := 3 } : BaseAgent).performHealthCheck 1
        (.ok unhealthyRes)).2.2 = true ∧
    (({ witnessAgent with retryCount := 3 } : BaseAgent).performHealthCheck 1
        (.ok unhealthyRes)).2.1 = [.stopped "monitoring" 1] ∧
    ((({ witnessAgent with retryCount := 3 } : BaseAgent).performHealthCheck 1
        (.ok unhealthyRes)).2.1.all fun e => !(isHealthCheckEvent e)) = true := by
  decide

/-- C4 amended: a health-check tick whose `checkHealth()` returns
normally emits the `healthCheck` event carrying the result when the
outcome is healthy or unhealthy-under-budget; the forced-stop tick
(unhealthy with `retryCount ≥ maxRetries`) performs the stop but emits
no `healthCheck` event, because `performHealthCheck` returns right
after `stop()`. -/
theorem C4_healthCheck_event_emission (a : BaseAgent) (now : Nat)
    (h : HealthCheckResult) :
    (h.status = "healthy" ∨ a.retryCount < a.maxRetries →
      (a.performHealthCheck now (.ok h)).2.1 = [.healthCheck a.name h now]) ∧
    (¬ h.status = "healthy" → a.retryCount ≥ a.maxRetries →
      (a.performHealthCheck now (.ok h)).2.2 = true ∧
      ((a.performHealthCheck now (.ok h)).2.1.all
        fun e => !(isHealthCheckEvent e)) = true) := by
  constructor
  · intro hcase
    by_cases hh : h.status = "healthy"
    · rw [performHealthCheck_healthy a now h hh]
    · have hlt : a.retryCount < a.maxRetries := by
        rcases hcase with hc | hc
        · exact absurd hc hh
        · exact hc
      rw [performHealthCheck_unhealthy_under a now h hh hlt]
  · intro hh hge
    rw [performHealthCheck_unhealthy_stop a now h hh hge]
    refine ⟨rfl, ?_⟩
    by_cases hcl : a.cleanupOk = true
    · simp [BaseAgent.stop, hcl, isHealthCheckEvent]
    · simp [BaseAgent.stop, hcl, isHealthCheckEvent]

/-- Witness for C4 (amended) at concrete inputs: a healthy tick on the
witness agent, and a forced-stop tick on the witness agent with an
exhausted budget. -/
theorem C4_healthCheck_event_emission_witness :
    (healthyRes.status = "healthy" ∨
      witnessAgent.retryCount < witnessAgent.maxRetries) ∧
    (witnessAgent.performHealthCheck 1 (.ok healthyRes)).2.1
      = [.healthCheck witnessAgent.name healthyRes 1] ∧
    (¬ unhealthyRes.status = "healthy") ∧
    ({ witnessAgent with retryCount := 3 } : BaseAgent).retryCount ≥
      ({ witnessAgent with retryCount := 3 } : BaseAgent).maxRetries ∧
    ((({ witnessAgent with retryCount := 3 } : BaseAgent).performHealthCheck 1
        (.ok unhealthyRes)).2.2 = true ∧
     ((({ witnessAgent with retryCount := 3 } : BaseAgent).performHealthCheck 1
        (.ok unhealthyRes)).2.1.all fun e => !(isHealthCheckEvent e)) = true) :=
  ⟨by decide,
   (C4_healthCheck_event_emission witnessAgent 1 healthyRes).1 (by decide),
   by decide, by decide,
   (C4_healthCheck_event_emission { witnessAgent with retryCount := 3 } 1
      unhealthyRes).2 (by decide) (by decide)⟩

/-- C5: for an agent name present and enabled in configuration (whose
name is a registered kind and whose initialisation succeeds), calling
`startAgent` twice in sequence yields exactly one active entry for that
name; the second call is an idempotent no-op that issues the
already-running warning, throws nothing, and leaves the active set
unchanged. -/
theorem C5_startAgent_twice_idempotent (c : ConfigManager)
    (beh : String → AgentBehavior) (m : ManagerState) (n : String)
    (now1 now2 : Nat) (d : AgentDefinition)
    (hcfg : c.getAgentConfig n = some d) (hen : d.enabled = true)
    (hnotactive : mapGet m.activeAgents n = none)
    (hknown : (mapGet agentClasses n).isSome = true)
    (hinit : (beh n).initOk = true) :
    (AgentManager.startAgent c beh m n now1).thrown = none ∧
    mapCountKey (AgentManager.startAgent c beh m n now1).state.activeAgents n = 1 ∧
    (AgentManager.startAgent c beh
      (AgentManager.startAgent c beh m n now1).state n now2).state
      = (AgentManager.startAgent c beh m n now1).state ∧
    (AgentManager.startAgent c beh
      (AgentManager.startAgent c beh m n now1).state n now2).thrown = none ∧
    (AgentManager.startAgent c beh
      (AgentManager.startAgent c beh m n now1).state n now2).warnings
      = ["Agent " ++ n ++ " is already running"] := by
  obtain ⟨cls, hcls⟩ : ∃ cls, mapGet agentClasses n = some cls := by
    cases hmc : mapGet agentClasses n with
    | some cls => exact ⟨cls, rfl⟩
    | none => rw [hmc] at hknown; exact absurd hknown (by simp)
  have hstart : (BaseAgent.start (newBaseAgent d (beh n)) now1).2.2 = true := by
    simp [BaseAgent.start, newBaseAgent, hinit]
  have hr1 : AgentManager.startAgent c beh m n now1 =
      ⟨⟨m.activeAgents ++ [(n, (BaseAgent.start (newBaseAgent d (beh n)) now1).1)]⟩,
       (BaseAgent.start (newBaseAgent d (beh n)) now1).2.1 ++ [.agentStarted n],
       [], none⟩ := by
    rw [AgentManager.startAgent, hcfg]
    simp only [hen, hnotactive, AgentManager.getAgentClass, hcls, Option.isSome_none]
    simp [hstart]
  have hgetnew : mapGet
      (m.activeAgents ++ [(n, (BaseAgent.start (newBaseAgent d (beh n)) now1).1)]) n
      = some (BaseAgent.start (newBaseAgent d (beh n)) now1).1 :=
    mapGet_append_of_none _ _ _ hnotactive
  have hr2 : AgentManager.startAgent c beh
      ⟨m.activeAgents ++ [(n, (BaseAgent.start (newBaseAgent d (beh n)) now1).1)]⟩
      n now2 =
      ⟨⟨m.activeAgents ++ [(n, (BaseAgent.start (newBaseAgent d (beh n)) now1).1)]⟩,
       [], ["Agent " ++ n ++ " is already running"], none⟩ := by
    rw [AgentManager.startAgent, hcfg]
    simp only [hen, hgetnew]
    simp
  have hcount : mapCountKey
      (m.activeAgents ++ [(n, (BaseAgent.start (newBaseAgent d (beh n)) now1).1)]) n
      = 1 := by
    rw [mapCountKey_append, mapGet_none_countKey_zero _ _ hnotactive]
    simp [mapCountKey]
  rw [hr1]
  exact ⟨rfl, hcount, by rw [hr2], by rw [hr2], by rw [hr2]⟩

/-- Witness for C5 at a concrete input: the enabled `monitoring` agent
started twice from an empty active set. -/
theorem C5_startAgent_twice_idempotent_witness :
    cfgOne.getAgentConfig "monitoring" = some defMonitoring ∧
    defMonitoring.enabled = true ∧
    mapGet (⟨[]⟩ : ManagerState).activeAgents "monitoring" = none ∧
    (mapGet agentClasses "monitoring").isSome = true ∧
    (behOK "monitoring").initOk = true ∧
    ((AgentManager.startAgent cfgOne behOK ⟨[]⟩ "monitoring" 0).thrown = none ∧
     mapCountKey (AgentManager.startAgent cfgOne behOK ⟨[]⟩
        "monitoring" 0).state.activeAgents "monitoring" = 1 ∧
     (AgentManager.startAgent cfgOne behOK
        (AgentManager.startAgent cfgOne behOK ⟨[]⟩ "monitoring" 0).state
        "monitoring" 1).state
       = (AgentManager.startAgent cfgOne behOK ⟨[]⟩ "monitoring" 0).state ∧
     (AgentManager.startAgent cfgOne behOK
        (AgentManager.startAgent cfgOne behOK ⟨[]⟩ "monitoring" 0).state
        "monitoring" 1).thrown = none ∧
     (AgentManager.startAgent cfgOne behOK
        (AgentManager.startAgent cfgOne behOK ⟨[]⟩ "monitoring" 0).state
        "monitoring" 1).warnings
       = ["Agent " ++ "monitoring" ++ " is already running"]) :=
  ⟨rfl, rfl, rfl, by decide, rfl,
   C5_startAgent_twice_idempotent cfgOne behOK ⟨[]⟩ "monitoring" 0 1
     defMonitoring rfl rfl rfl (by decide) rfl⟩

/-- C6 counterexample: the enabled `monitoring` agent whose
`initialize` hook throws.  `startAgent` rethrows and the agent is NOT in
the supervisor's active set afterwards (the claim asserts it is left in
the active set for operator inspection): registration happens only
after a successful `agent.start()`. -/
theorem C6_init_failure_not_in_active_set_counterexample :
    (AgentManager.startAgent cfgOne behInitFails ⟨[]⟩ "monitoring" 0).thrown
      = some (.agentStartError "monitoring") ∧
    (AgentManager.startAgent cfgOne behInitFails ⟨[]⟩ "monitoring" 0).events
      = [.errorEvent "monitoring" 0] ∧
    mapGet (AgentManager.startAgent cfgOne behInitFails ⟨[]⟩
        "monitoring" 0).state.activeAgents "monitoring" = none := by
  decide

/-- C6 amended: when the `initialize` hook throws during
`startAgent(n)`, the error is surfaced as an `error` event and the
instance transitions to `error` status, but the exception propagates to
the caller BEFORE registration: the agent is never added to the active
set, which is left unchanged. -/
theorem C6_init_error_event_but_not_registered (c : ConfigManager)
    (beh : String → AgentBehavior) (m : ManagerState) (n : String) (now : Nat)
    (d : AgentDefinition)
    (hcfg : c.getAgentConfig n = some d) (hen : d.enabled = true)
    (hnotactive : mapGet m.activeAgents n = none)
    (hknown : (mapGet agentClasses n).isSome = true)
    (hinit : (beh n).initOk = false) :
    (AgentManager.startAgent c beh m n now).thrown = some (.agentStartError n) ∧
    (AgentManager.startAgent c beh m n now).events = [.errorEvent d.name now] ∧
    (AgentManager.startAgent c beh m n now).state = m ∧
    (BaseAgent.start (newBaseAgent d (beh n)) now).1.status = .error := by
  obtain ⟨cls, hcls⟩ : ∃ cls, mapGet agentClasses n = some cls := by
    cases hmc : mapGet agentClasses n with
    | some cls => exact ⟨cls, rfl⟩
    | none => rw [hmc] at hknown; exact absurd hknown (by simp)
  have hstart : (BaseAgent.start (newBaseAgent d (beh n)) now).2.2 = false := by
    simp [BaseAgent.start, newBaseAgent, hinit]
  have hr : AgentManager.startAgent c beh m n now =
      ⟨m, (BaseAgent.start (newBaseAgent d (beh n)) now).2.1, [],
       some (.agentStartError n)⟩ := by
    rw [AgentManager.startAgent, hcfg]
    simp only [hen, hnotactive, AgentManager.getAgentClass, hcls, Option.isSome_none]
    simp [hstart]
  rw [hr]
  refine ⟨rfl, ?_, rfl, ?_⟩
  · simp [BaseAgent.start, newBaseAgent, hinit]
  · simp [BaseAgent.start, newBaseAgent, hinit]

/-- Witness for C6 (amended) at a concrete input. -/
theorem C6_init_error_event_but_not_registered_witness :
    cfgOne.getAgentConfig "monitoring" = some defMonitoring ∧
    defMonitoring.enabled = true ∧
    mapGet (⟨[]⟩ : ManagerState).activeAgents "monitoring" = none ∧
    (mapGet agentClasses "monitoring").isSome = true ∧
    (behInitFails "monitoring").initOk = false ∧
    ((AgentManager.startAgent cfgOne behInitFails ⟨[]⟩ "monitoring" 0).thrown
       = some (.agentStartError "monitoring") ∧
     (AgentManager.startAgent cfgOne behInitFails ⟨[]⟩ "monitoring" 0).events
       = [.errorEvent defMonitoring.name 0] ∧
     (AgentManager.startAgent cfgOne behInitFails ⟨[]⟩ "monitoring" 0).state
       = (⟨[]⟩ : ManagerState) ∧
     (BaseAgent.start (newBaseAgent defMonitoring (behInitFails "monitoring")) 0).1.status
       = .error) :=
  ⟨rfl, rfl, rfl, by decide, rfl,
   C6_init_error_event_but_not_registered cfgOne behInitFails ⟨[]⟩
     "monitoring" 0 defMonitoring rfl rfl rfl (by decide) rfl⟩

/-- C7 counterexample: a definition whose `type` field is the known
kind `monitoring` but whose NAME (`custom-monitor`) is not a registry
key.  `startAgent` throws `Unknown agent type: custom-monitor` even
though the `type` IS one of the known kinds — the registry lookup in
`getAgentClass` is keyed by agent name and ignores the `type` field,
contradicting the claim that the error occurs exactly when the `type`
is unknown. -/
theorem C7_type_field_ignored_counterexample :
    defCustomMonitor.type = "monitoring" ∧
    (mapGet agentClasses defCustomMonitor.type).isSome = true ∧
    defCustomMonitor.enabled = true ∧
    (AgentManager.startAgent cfgCustom behOK ⟨[]⟩ "custom-monitor" 0).thrown
      = some (.unknownAgentType "custom-monitor") := by
  decide

/-- C7 amended: `startAgent` selects the constructor from the fixed
registry keyed by the agent NAME (the definition's `type` field is
ignored), and throws the unknown-agent-type error exactly when the name
is not a registry key; an unknown name is a caller-visible thrown
error, never a silent no-op (the active set is unchanged and the thrown
field is set). -/
theorem C7_unknown_kind_error_iff_name_unregistered (c : ConfigManager)
    (beh : String → AgentBehavior) (m : ManagerState) (n : String) (now : Nat)
    (d : AgentDefinition)
    (hcfg : c.getAgentConfig n = some d) (hen : d.enabled = true)
    (hnotactive : mapGet m.activeAgents n = none) :
    ((AgentManager.startAgent c beh m n now).thrown = some (.unknownAgentType n)
       ↔ mapGet agentClasses n = none) ∧
    (mapGet agentClasses n = none →
       (AgentManager.startAgent c beh m n now).state = m ∧
       (AgentManager.startAgent c beh m n now).thrown ≠ none) := by
  cases hcls : mapGet agentClasses n with
  | none =>
    have hr : AgentManager.startAgent c beh m n now =
        ⟨m, [], [], some (.unknownAgentType n)⟩ := by
      rw [AgentManager.startAgent, hcfg]
      simp only [hen, hnotactive, AgentManager.getAgentClass, hcls, Option.isSome_none]
      simp
    rw [hr]
    simp
  | some cls =>
    by_cases hini : (beh n).initOk = true
    · have hstart : (BaseAgent.start (newBaseAgent d (beh n)) now).2.2 = true := by
        simp [BaseAgent.start, newBaseAgent, hini]
      have hr : AgentManager.startAgent c beh m n now =
          ⟨⟨m.activeAgents ++ [(n, (BaseAgent.start (newBaseAgent d (beh n)) now).1)]⟩,
           (BaseAgent.start (newBaseAgent d (beh n)) now).2.1 ++ [.agentStarted n],
           [], none⟩ := by
        rw [AgentManager.startAgent, hcfg]
        simp only [hen, hnotactive, AgentManager.getAgentClass, hcls, Option.isSome_none]
        simp [hstart]
      rw [hr]
      simp
    · have hini2 : (beh n).initOk = false := by
        revert hini; cases (beh n).initOk <;> simp
      have hstart : (BaseAgent.start (newBaseAgent d (beh n)) now).2.2 = false := by
        simp [BaseAgent.start, newBaseAgent, hini2]
      have hr : AgentManager.startAgent c beh m n now =
          ⟨m, (BaseAgent.start (newBaseAgent d (beh n)) now).2.1, [],
           some (.agentStartError n)⟩ := by
        rw [AgentManager.startAgent, hcfg]
        simp only [hen, hnotactive, AgentManager.getAgentClass, hcls, Option.isSome_none]
        simp [hstart]
      rw [hr]
      simp

/-- Witness for C7 (amended) at a concrete input: the `custom-monitor`
definition, whose name is not a registry key. -/
theorem C7_unknown_kind_error_iff_name_unregistered_witness :
    cfgCustom.getAgentConfig "custom-monitor" = some defCustomMonitor ∧
    defCustomMonitor.enabled = true ∧
    mapGet (⟨[]⟩ : ManagerState).activeAgents "custom-monitor" = none ∧
    (((AgentManager.startAgent cfgCustom behOK ⟨[]⟩ "custom-monitor" 0).thrown
        = some (.unknownAgentType "custom-monitor")
        ↔ mapGet agentClasses "custom-monitor" = none) ∧
     (mapGet agentClasses "custom-monitor" = none →
        (AgentManager.startAgent cfgCustom behOK ⟨[]⟩ "custom-monitor" 0).state
          = (⟨[]⟩ : ManagerState) ∧
        (AgentManager.startAgent cfgCustom behOK ⟨[]⟩ "custom-monitor" 0).thrown
          ≠ none)) :=
  ⟨rfl, rfl, rfl,
   C7_unknown_kind_error_iff_name_unregistered cfgCustom behOK ⟨[]⟩
     "custom-monitor" 0 defCustomMonitor rfl rfl rfl⟩

/-- C8: `startAll` attempts exactly the `enabled=true` definitions
(here `bogus-agent`, `security`, `monitoring`; the disabled
`test-runner` is skipped), catches each per-agent failure, and never
aborts early: `bogus-agent` fails (unknown kind) and — for
`bsec = false` — `security` fails at `initialize`, yet `monitoring`,
listed after both, is started; the disabled and failed agents are
absent from the active set.  `startAll` cannot raise: every
`startAgent` call sits in the loop's catch (`startAllGo` discards the
`thrown` field and continues), and `startAll` returns a plain result
with no exception channel. -/
theorem C8_startAll_best_effort (bsec : Bool) :
    cfgStartAll.getEnabledAgents.map AgentDefinition.name
      = ["bogus-agent", "security", "monitoring"] ∧
    (mapGet (AgentManager.startAll cfgStartAll (behStartAll bsec)
        ⟨[]⟩ 0).1.activeAgents "monitoring").isSome = true ∧
    mapGet (AgentManager.startAll cfgStartAll (behStartAll bsec)
        ⟨[]⟩ 0).1.activeAgents "test-runner" = none ∧
    mapGet (AgentManager.startAll cfgStartAll (behStartAll bsec)
        ⟨[]⟩ 0).1.activeAgents "bogus-agent" = none ∧
    (mapGet (AgentManager.startAll cfgStartAll (behStartAll bsec)
        ⟨[]⟩ 0).1.activeAgents "security").isSome = bsec := by
  cases bsec <;> decide

/-- C9 counterexample: two subscribers, the first of which throws.
Node `emit` dispatch invokes only the first handler: the handler
registered after the throwing one never receives the event, and the
exception propagates back out of `emit` into the supervisor operation
that emitted — the claim asserts a throwing handler is caught and
logged, never preventing delivery to later handlers nor propagating. -/
theorem C9_throwing_handler_counterexample :
    emitRun [⟨0, true⟩, ⟨1, false⟩] = ([0], true) := by
  decide

/-- C9 amended: event delivery is synchronous and in registration
order, but without handler isolation: the handlers invoked are exactly
the prefix of non-throwing handlers followed by the first throwing one
(if any), and the exception propagates out of `emit` exactly when some
invoked handler throws. -/
theorem C9_emit_in_order_until_first_throw (hs : List Handler) :
    (emitRun hs).1 =
      ((hs.takeWhile fun h => !h.throwsOn).map Handler.hid ++
        ((hs.dropWhile fun h => !h.throwsOn).head?.map Handler.hid).toList) ∧
    (emitRun hs).2 = hs.any fun h => h.throwsOn := by
  induction hs with
  | nil => exact ⟨rfl, rfl⟩
  | cons h hs ih =>
    by_cases hth : h.throwsOn = true
    · simp [emitRun, hth, List.takeWhile_cons, List.dropWhile_cons]
    · have hth2 : h.throwsOn = false := by
        revert hth; cases h.throwsOn <;> simp
      simp [emitRun, hth2, List.takeWhile_cons, List.dropWhile_cons, ih.1, ih.2]

end BackgroundAgents
